import Mathlib

/-!
Verification development for the linksh identity/session core.

The definitions below are a shallow embedding of
`src/pkg/repositories/user_repository.go` (package `repositories`, plus the
error variables of `pkg/interfaces/user_repository` shown in the sources) and
of the session manager (package `sessions`).  Go strings are modelled as Lean
`String` with `String.length` standing for Go's `len`; byte slices (`[]byte`)
are modelled as `List Nat`.  A Go `(value, error)` pair is modelled as
`Except`.  The storage capability (`sto.IStorage`) is an external collaborator
consumed through a narrow interface, so it is modelled as a record of abstract
functions; every call a repository method makes to it is additionally recorded
in a trace (`List SCall`) so that frame properties ("storage is not touched")
are expressible.
-/

deriving instance DecidableEq for Except

namespace Linksh

/-- Errors produced by the abstract storage capability: `sto.NotFoundError`
versus any other storage error (carrying its message). -/
inductive StorageErr
  | notFound
  | other (msg : String)
  deriving DecidableEq

/-- The account model (`models.User` as used by the repository): id, name,
bcrypt password hash, admin flag. -/
structure User where
  id : String
  name : String
  password : List Nat
  isAdmin : Bool
  deriving DecidableEq

/-- Update patch for an account.  The fields `ID`, `Name` (nil-able pointer)
and `Password` (nil-able slice) are exactly the ones the source's `Update`
and `UpdateByUser` read.  The `IsAdmin` field is modelled from the spec: the
struct `user_repository.UpdatePayload` itself is not under src/, and the spec
(§4.3) and the source comment on `UpdateByUser` both treat `isAdmin` as a
patchable field. -/
structure UpdatePayload where
  ID : String
  Name : Option String
  Password : Option (List Nat)
  IsAdmin : Option Bool
  deriving DecidableEq

/-- Errors surfaced by the repository layer: the validation errors of
`pkg/interfaces/user_repository`, the spec's `Forbidden`, storage
absence/failure, and the hashing / id-generation failures of `Create`. -/
inductive RepoErr
  | invalidName
  | invalidPassword
  | forbidden
  | notFound
  | storageFailure (msg : String)
  | hashFailure (msg : String)
  | idFailure (msg : String)
  deriving DecidableEq

/-- Injection of a storage error into the repository error type (the Go code
returns the storage error value unchanged; the two Lean types are separate
only so that validation errors cannot be confused with storage errors). -/
def ofStorageErr : StorageErr → RepoErr
  | StorageErr.notFound => RepoErr.notFound
  | StorageErr.other m => RepoErr.storageFailure m

/-- Lift a storage result into a repository result. -/
def liftE {α : Type} : Except StorageErr α → Except RepoErr α
  | Except.ok a => Except.ok a
  | Except.error e => Except.error (ofStorageErr e)

/-- The storage capability `sto.IStorage`, as a record of abstract functions
(the interface itself is external to the repository, spec §6). -/
structure Storage where
  getUserByName : String → Except StorageErr User
  getUser : String → Except StorageErr User
  saveUser : User → Except StorageErr Unit
  listUsers : Nat → Nat → Except StorageErr (List User)
  updateUser : UpdatePayload → Except StorageErr Unit
  deleteUser : String → Except StorageErr Unit

/-- One observable call made by a repository method to the storage
capability; repository operations return the list of calls they performed so
that "no delete occurred" is a statement about the trace. -/
inductive SCall
  | getUserByName (name : String)
  | getUser (id : String)
  | saveUser (u : User)
  | listUsers (limit offset : Nat)
  | updateUser (p : UpdatePayload)
  | deleteUser (id : String)
  deriving DecidableEq

/-- Validation of an account name (`validateName`, user_repository.go
175-180): fails with `ErrInvalidName` when the length is 0 or exceeds 100. -/
def validateName (name : String) : Except RepoErr Unit :=
  if name.length = 0 ∨ name.length > 100 then Except.error RepoErr.invalidName
  else Except.ok ()

/-- Validation of a password (`validatePassword`, user_repository.go
182-187): fails with `ErrInvalidPassword` when shorter than 6 bytes. -/
def validatePassword (password : List Nat) : Except RepoErr Unit :=
  if password.length < 6 then Except.error RepoErr.invalidPassword
  else Except.ok ()

/-- `Create` (user_repository.go 35-62): validate name, validate password,
hash the password (`bcrypt.GenerateFromPassword`, an oracle `hash`), generate
an id (`gonanoid.Nanoid`, an oracle `genID`), build the user and save it. -/
def create (st : Storage) (hash : List Nat → Except String (List Nat))
    (genID : Except String String) (name : String) (password : List Nat)
    (isAdmin : Bool) : Except RepoErr User × List SCall :=
  match validateName name with
  | Except.error e => (Except.error e, [])
  | Except.ok _ =>
    match validatePassword password with
    | Except.error e => (Except.error e, [])
    | Except.ok _ =>
      match hash password with
      | Except.error m => (Except.error (RepoErr.hashFailure m), [])
      | Except.ok pwHash =>
        match genID with
        | Except.error m => (Except.error (RepoErr.idFailure m), [])
        | Except.ok newID =>
          let user : User :=
            { id := newID, name := name, password := pwHash, isAdmin := isAdmin }
          match st.saveUser user with
          | Except.error e => (Except.error (ofStorageErr e), [SCall.saveUser user])
          | Except.ok _ => (Except.ok user, [SCall.saveUser user])

/-- `Get` (user_repository.go 66-68): delegate to `Storage.GetUser`. -/
def get (st : Storage) (id : String) : Except RepoErr User × List SCall :=
  (liftE (st.getUser id), [SCall.getUser id])

/-- `Update` (user_repository.go 79-94): validate the name if present, then
the password if present, then delegate the whole payload to
`Storage.UpdateUser`. -/
def update (st : Storage) (p : UpdatePayload) : Except RepoErr Unit × List SCall :=
  match (match p.Name with | some n => validateName n | none => Except.ok ()) with
  | Except.error e => (Except.error e, [])
  | Except.ok _ =>
    match (match p.Password with | some w => validatePassword w | none => Except.ok ()) with
    | Except.error e => (Except.error e, [])
    | Except.ok _ => (liftE (st.updateUser p), [SCall.updateUser p])

/-- `Delete` (user_repository.go 98-100): delegate to `Storage.DeleteUser`. -/
def delete (st : Storage) (id : String) : Except RepoErr Unit × List SCall :=
  (liftE (st.deleteUser id), [SCall.deleteUser id])

/-- Modelled from the spec: `checkIfRequesterIsAdmin` is called throughout
user_repository.go but its definition is not under src/.  Per spec §4.3,
"fetch requester's Account by `requesterID`; if lookup fails with `NotFound`,
the action is denied (`Forbidden`, not `NotFound`); otherwise test `isAdmin`"
(denying with `Forbidden` when the requester is not an admin); any other
storage failure is propagated. -/
def checkIfRequesterIsAdmin (st : Storage) (requesterID : String) :
    Except RepoErr Unit × List SCall :=
  match st.getUser requesterID with
  | Except.error StorageErr.notFound =>
      (Except.error RepoErr.forbidden, [SCall.getUser requesterID])
  | Except.error (StorageErr.other m) =>
      (Except.error (RepoErr.storageFailure m), [SCall.getUser requesterID])
  | Except.ok u =>
      (if u.isAdmin then Except.ok () else Except.error RepoErr.forbidden,
       [SCall.getUser requesterID])

/-- `GetByUser` (user_repository.go 118-127): when the requester is not the
target, require the requester to be an admin; then delegate to `Get`. -/
def getByUser (st : Storage) (requesterID id : String) :
    Except RepoErr User × List SCall :=
  if requesterID ≠ id then
    match checkIfRequesterIsAdmin st requesterID with
    | (Except.error e, t) => (Except.error e, t)
    | (Except.ok _, t) =>
      let r := get st id
      (r.1, t ++ r.2)
  else get st id

/-- `UpdateByUser` (user_repository.go 146-155): when the requester is not
the patch's target, require the requester to be an admin; then delegate to
`Update`.  (This is the complete body of the source function: it contains no
check of the patch's `isAdmin` field.) -/
def updateByUser (st : Storage) (requesterID : String) (p : UpdatePayload) :
    Except RepoErr Unit × List SCall :=
  if requesterID ≠ p.ID then
    match checkIfRequesterIsAdmin st requesterID with
    | (Except.error e, t) => (Except.error e, t)
    | (Except.ok _, t) =>
      let r := update st p
      (r.1, t ++ r.2)
  else update st p

/-- `DeleteByUser` (user_repository.go 160-169): when the requester is not
the target, require the requester to be an admin; then delegate to
`Delete`. -/
def deleteByUser (st : Storage) (requesterID id : String) :
    Except RepoErr Unit × List SCall :=
  if requesterID ≠ id then
    match checkIfRequesterIsAdmin st requesterID with
    | (Except.error e, t) => (Except.error e, t)
    | (Except.ok _, t) =>
      let r := delete st id
      (r.1, t ++ r.2)
  else delete st id

/-- Result of `CheckLoginCredentials`: either a Go `(bool, error)` return, or
a runtime panic. -/
inductive CheckResult
  | ret (matched : Bool) (err : Option RepoErr)
  | panics (msg : String)
  deriving DecidableEq

/-- `CheckLoginCredentials` (user_repository.go 18-31).  The source declares
`var notFoundError *sto.NotFoundError` (a nil pointer) and then calls
`errors.As(err, notFoundError)`, passing the nil pointer itself rather than
its address; `golang.org/x/xerrors.As` panics with "errors: target must be a
non-nil pointer" whenever its target is a nil pointer, so every branch in
which `GetUserByName` returned a non-nil error panics before reaching either
`return` statement.  When the lookup succeeds, the result is
`bcrypt.CompareHashAndPassword(user.Password, password) == nil` (the `verify`
oracle, hash first) paired with a nil error. -/
def checkLoginCredentials (st : Storage) (verify : List Nat → List Nat → Bool)
    (name : String) (password : List Nat) : CheckResult :=
  match st.getUserByName name with
  | Except.error _ => CheckResult.panics "errors: target must be a non-nil pointer"
  | Except.ok user => CheckResult.ret (verify user.password password) none

/-- Predicate on `CheckLoginCredentials` results: the call never reports a
credential match together with a non-nil error. -/
def noMatchWithError : CheckResult → Prop
  | CheckResult.ret true (some _) => False
  | _ => True

/-- Decidable check that a storage trace contains no delete call. -/
def noDeleteCall : List SCall → Bool
  | [] => true
  | SCall.deleteUser _ :: _ => false
  | _ :: rest => noDeleteCall rest

/-- Errors of the session manager's Auto-GC controls (sessions package): "The
autoGC job is already running" / "The autoGC job was not running". -/
inductive GCErr
  | alreadyRunning
  | notRunning
  deriving DecidableEq

/-- `EnableAutoGC` (sessions package): acting on the manager's
`autoGCShouldBeRunning` flag, fail when the flag is already set, else set it
(and spawn the loop).  The sequential result is the returned error (if any)
paired with the new flag value. -/
def enableAutoGC (running : Bool) : Except GCErr Unit × Bool :=
  if running then (Except.error GCErr.alreadyRunning, running)
  else (Except.ok (), true)

/-- `DisableAutoGC` (sessions package): fail when the flag is not set, else
clear it. -/
def disableAutoGC (running : Bool) : Except GCErr Unit × Bool :=
  if !running then (Except.error GCErr.notRunning, running)
  else (Except.ok (), false)

/-- A call to one of the two Auto-GC controls. -/
inductive GCOp
  | enable
  | disable
  deriving DecidableEq

/-- Run a single Auto-GC control call against the flag. -/
def runStep (s : Bool) : GCOp → Except GCErr Unit × Bool
  | GCOp.enable => enableAutoGC s
  | GCOp.disable => disableAutoGC s

/-- Flag value after a sequence of Auto-GC control calls. -/
def stateAfter (s : Bool) : List GCOp → Bool
  | [] => s
  | op :: rest => stateAfter (runStep s op).2 rest

/-- Whether a sequence of Auto-GC control calls contains no enable. -/
def allDisables : List GCOp → Bool
  | [] => true
  | GCOp.disable :: rest => allDisables rest
  | GCOp.enable :: _ => false

/-- Observable events of the background Auto-GC loop: a `GC()` call (with the
result the provider returned, which the loop discards) and an interval
sleep. -/
inductive LoopEvent
  | gcCall (result : Except StorageErr Unit)
  | sleep (interval : Nat)

/-- The event list with GC results erased; two runs with the same shape make
the same calls in the same order and terminate identically. -/
inductive LoopShape
  | gcMark
  | sleepMark (interval : Nat)
  deriving DecidableEq

/-- The background loop spawned by `EnableAutoGC`:
`for manager.autoGCShouldBeRunning { manager.GC(); time.Sleep(x) }`.
The concurrently mutable flag is an oracle `flag` sampled at each re-check
(iteration `k`), the provider's GC outcome is an oracle `gc`, and `fuel`
bounds the number of observed iterations.  The GC result is recorded in the
event but never inspected. -/
def autoGCLoop (flag : Nat → Bool) (gc : Nat → Except StorageErr Unit)
    (x : Nat) : Nat → Nat → List LoopEvent
  | _, 0 => []
  | k, fuel + 1 =>
    if flag k then
      LoopEvent.gcCall (gc k) :: LoopEvent.sleep x :: autoGCLoop flag gc x (k + 1) fuel
    else []

/-- Shape of an event trace (GC results erased). -/
def shape : List LoopEvent → List LoopShape
  | [] => []
  | LoopEvent.gcCall _ :: rest => LoopShape.gcMark :: shape rest
  | LoopEvent.sleep x :: rest => LoopShape.sleepMark x :: shape rest

/-- Decidable check that a trace is a sequence of GC-then-sleep pairs. -/
def paired : List LoopEvent → Bool
  | [] => true
  | LoopEvent.gcCall _ :: LoopEvent.sleep _ :: rest => paired rest
  | _ => false

/-- Position of one thread executing `EnableAutoGC`.  The body compiles to
two separately scheduled accesses of the unsynchronized
`autoGCShouldBeRunning` field: `atCheck` is the read in
`if manager.autoGCShouldBeRunning`, and `atSet` is the write
`manager.autoGCShouldBeRunning = true` together with the `go` spawn that
immediately follows it; nothing in the source orders another goroutine's
accesses between the two. -/
inductive TPos
  | atCheck
  | atSet
  | finished (result : Except GCErr Unit)

/-- Shared configuration of two concurrent `EnableAutoGC` calls: the flag,
the number of loops spawned so far, and each caller's position. -/
structure RaceCfg where
  flag : Bool
  loops : Nat
  t1 : TPos
  t2 : TPos

/-- Advance one `EnableAutoGC` caller by one step against the shared flag. -/
def stepThread (flag : Bool) (loops : Nat) : TPos → Bool × Nat × TPos
  | TPos.atCheck =>
    if flag then (flag, loops, TPos.finished (Except.error GCErr.alreadyRunning))
    else (flag, loops, TPos.atSet)
  | TPos.atSet => (true, loops + 1, TPos.finished (Except.ok ()))
  | TPos.finished r => (flag, loops, TPos.finished r)

/-- Schedule one step of the first caller. -/
def step1 (c : RaceCfg) : RaceCfg :=
  let s := stepThread c.flag c.loops c.t1
  { flag := s.1, loops := s.2.1, t1 := s.2.2, t2 := c.t2 }

/-- Schedule one step of the second caller. -/
def step2 (c : RaceCfg) : RaceCfg :=
  let s := stepThread c.flag c.loops c.t2
  { flag := s.1, loops := s.2.1, t1 := c.t1, t2 := s.2.2 }

/-- Two concurrent `EnableAutoGC` calls on a fresh manager (flag down, no
loop spawned). -/
def raceInit : RaceCfg :=
  { flag := false, loops := 0, t1 := TPos.atCheck, t2 := TPos.atCheck }

/-- A stored non-admin account, used as a concrete requester. -/
def u1 : User :=
  { id := "u1", name := "u1", password := [1, 2, 3, 4, 5, 6], isAdmin := false }

/-- A stored admin account. -/
def rootUser : User :=
  { id := "root", name := "root", password := [0, 0, 0, 0, 0, 0], isAdmin := true }

/-- A storage holding no accounts: every lookup, update and delete reports
not-found. -/
def stEmpty : Storage :=
  { getUserByName := fun _ => Except.error StorageErr.notFound
    getUser := fun _ => Except.error StorageErr.notFound
    saveUser := fun _ => Except.ok ()
    listUsers := fun _ _ => Except.ok []
    updateUser := fun _ => Except.error StorageErr.notFound
    deleteUser := fun _ => Except.error StorageErr.notFound }

/-- A storage holding exactly the non-admin account `u1`. -/
def stU1 : Storage :=
  { getUserByName := fun n => if n = "u1" then Except.ok u1 else Except.error StorageErr.notFound
    getUser := fun i => if i = "u1" then Except.ok u1 else Except.error StorageErr.notFound
    saveUser := fun _ => Except.ok ()
    listUsers := fun _ _ => Except.ok [u1]
    updateUser := fun _ => Except.ok ()
    deleteUser := fun _ => Except.ok () }

/-- A storage holding the admin `rootUser` and the non-admin `u1`. -/
def stAdmin : Storage :=
  { getUserByName := fun n =>
      if n = "root" then Except.ok rootUser
      else if n = "u1" then Except.ok u1 else Except.error StorageErr.notFound
    getUser := fun i =>
      if i = "root" then Except.ok rootUser
      else if i = "u1" then Except.ok u1 else Except.error StorageErr.notFound
    saveUser := fun _ => Except.ok ()
    listUsers := fun _ _ => Except.ok [rootUser, u1]
    updateUser := fun _ => Except.ok ()
    deleteUser := fun _ => Except.ok () }

/-- The self-escalation patch: `u1` asks to set its own `isAdmin` to true. -/
def escalPatch : UpdatePayload :=
  { ID := "u1", Name := none, Password := none, IsAdmin := some true }

/-- A patch for a nonexistent account carrying an invalid (empty) name. -/
def badNamePatch : UpdatePayload :=
  { ID := "ghost", Name := some "", Password := none, IsAdmin := none }

/-- A patch for a nonexistent account whose present fields are all valid. -/
def goodPatch : UpdatePayload :=
  { ID := "ghost", Name := some "ok", Password := none, IsAdmin := none }

/-- A hashing oracle that never fails (identity digest). -/
def okHash : List Nat → Except String (List Nat) := fun pw => Except.ok pw

/-- An id-generation oracle that never fails. -/
def okGenID : Except String String := Except.ok "id0"

/-- A credential-verification oracle that never matches. -/
def alwaysFalseVerify : List Nat → List Nat → Bool := fun _ _ => false

/-- A name of exactly 100 characters (upper validation boundary). -/
def name100 : String := String.mk (List.replicate 100 'a')

/-- C1.  The stored requester `u1` is not an admin, the patch targets `u1`
itself and sets `isAdmin` to true, yet `UpdateByUser` succeeds and hands the
patch to `Storage.UpdateUser`: the self-service path of the source skips the
admin check entirely and neither `UpdateByUser` nor `Update` inspects the
patch's `isAdmin` field, contradicting the source's own comment ("The isAdmin
property can only be changed by other admins") and the spec's
privilege-escalation guard. -/
theorem c1_selfservice_escalation_applied :
    u1.isAdmin = false
    ∧ stU1.getUser "u1" = Except.ok u1
    ∧ escalPatch.IsAdmin = some true
    ∧ escalPatch.ID = "u1"
    ∧ updateByUser stU1 "u1" escalPatch =
        (Except.ok (), [SCall.updateUser escalPatch]) := by
  refine ⟨rfl, ?_, rfl, rfl, ?_⟩ <;> decide

/-- C2.  With the name "bob" absent from storage, `CheckLoginCredentials`
does not return `(false, nil)`: the storage error reaches
`errors.As(err, notFoundError)` whose target is a nil pointer, and
`xerrors.As` panics, so the not-found branch (and the wrapping branch) of the
source are unreachable. -/
theorem c2_absent_name_panics :
    stEmpty.getUserByName "bob" = Except.error StorageErr.notFound
    ∧ checkLoginCredentials stEmpty alwaysFalseVerify "bob" [1, 2, 3] =
        CheckResult.panics "errors: target must be a non-nil pointer" :=
  ⟨rfl, rfl⟩

/-- C3 counterexample.  The target "ghost" does not exist in `stEmpty`, the
patch carries the invalid empty name, and `Update` returns `InvalidName`
without ever calling storage — not `NotFound` as the claim states. -/
theorem c3_counterexample :
    stEmpty.getUser "ghost" = Except.error StorageErr.notFound
    ∧ stEmpty.updateUser badNamePatch = Except.error StorageErr.notFound
    ∧ update stEmpty badNamePatch = (Except.error RepoErr.invalidName, []) :=
  ⟨rfl, rfl, rfl⟩

/-- C4 counterexample.  Self-service `GetByUser` with requester equal to the
target does not always succeed: when the account is absent the call fails
with `NotFound`. -/
theorem c4_counterexample :
    getByUser stEmpty "a" "a" =
      (Except.error RepoErr.notFound, [SCall.getUser "a"]) := by
  decide

/-- C6 counterexample.  The secret `[1, 2, 3]` is shorter than 6, yet
`Create` with the (also invalid) empty name fails with `InvalidName`, not
`InvalidSecret`: name validation runs first, so "fails with InvalidSecret
exactly when the secret is shorter than 6" is false as stated. -/
theorem c6_counterexample :
    List.length [1, 2, 3] < 6
    ∧ ("" : String).length = 0
    ∧ (create stEmpty okHash okGenID "" [1, 2, 3] false).1 =
        Except.error RepoErr.invalidName := by
  refine ⟨by decide, rfl, rfl⟩

/-- C8.  Interleaving two concurrent `EnableAutoGC` calls so that both read
the unsynchronized flag before either writes it makes both calls succeed and
spawn a loop (`loops = 2`), while running the same two calls back to back
spawns exactly one loop and fails the second call: the check and the
set-plus-spawn are two separately scheduled accesses, not one atomic guarded
operation. -/
theorem c8_race_spawns_two_loops :
    step2 (step1 (step2 (step1 raceInit))) =
      { flag := true, loops := 2, t1 := TPos.finished (Except.ok ()),
        t2 := TPos.finished (Except.ok ()) }
    ∧ step2 (step2 (step1 (step1 raceInit))) =
      { flag := true, loops := 1, t1 := TPos.finished (Except.ok ()),
        t2 := TPos.finished (Except.error GCErr.alreadyRunning) } :=
  ⟨rfl, rfl⟩

/-- C10.  For every storage, verification oracle, name and password,
`CheckLoginCredentials` never reports a credential match together with a
non-nil error: the only return that can carry `true` pairs it with a nil
error. -/
theorem c10_no_match_with_error :
    ∀ (st : Storage) (verify : List Nat → List Nat → Bool)
      (name : String) (password : List Nat),
      noMatchWithError (checkLoginCredentials st verify name password) := by
  intro st verify name password
  unfold checkLoginCredentials
  cases st.getUserByName name with
  | error e => trivial
  | ok u =>
    show noMatchWithError (CheckResult.ret (verify u.password password) none)
    cases verify u.password password <;> trivial

/-- Helper: a sequence of Auto-GC control calls containing no enable leaves
the flag down. -/
theorem allDisables_stateAfter :
    ∀ ops : List GCOp, allDisables ops = true → stateAfter false ops = false := by
  intro ops
  induction ops with
  | nil => intro _; rfl
  | cons op rest ih =>
    cases op with
    | enable => intro h; exact absurd h (by simp [allDisables])
    | disable => intro h; exact ih h

/-- C5.  The Auto-GC controls form the two-state machine of the spec:
enable moves Stopped to Running and fails with `AlreadyRunning` on Running,
disable moves Running to Stopped and fails with `NotRunning` on Stopped;
in every sequence of calls the second of two consecutive enables fails with
`AlreadyRunning`, and a disable preceded by no enable fails with
`NotRunning`. -/
theorem c5_autogc_state_machine :
    enableAutoGC false = (Except.ok (), true)
    ∧ enableAutoGC true = (Except.error GCErr.alreadyRunning, true)
    ∧ disableAutoGC true = (Except.ok (), false)
    ∧ disableAutoGC false = (Except.error GCErr.notRunning, false)
    ∧ (∀ s : Bool,
        (runStep (runStep s GCOp.enable).2 GCOp.enable).1 =
          Except.error GCErr.alreadyRunning)
    ∧ (∀ ops : List GCOp, allDisables ops = true →
        (disableAutoGC (stateAfter false ops)).1 = Except.error GCErr.notRunning) := by
  refine ⟨rfl, rfl, rfl, rfl, ?_, ?_⟩
  · intro s; cases s <;> rfl
  · intro ops h
    rw [allDisables_stateAfter ops h]
    rfl

/-- C5 witness: on a fresh manager, enable-then-enable fails the second call,
and a disable that follows only disables fails with `NotRunning`. -/
theorem c5_witness :
    (runStep (runStep false GCOp.enable).2 GCOp.enable).1 =
      Except.error GCErr.alreadyRunning
    ∧ (disableAutoGC (stateAfter false [GCOp.disable])).1 =
      Except.error GCErr.notRunning :=
  ⟨c5_autogc_state_machine.2.2.2.2.1 false,
   c5_autogc_state_machine.2.2.2.2.2 [GCOp.disable] rfl⟩

/-- C7.  For every storage, whenever the stored requester is not an admin and
differs from the target id, `DeleteByUser` fails with `Forbidden`, its whole
storage trace is the single admin lookup, and in particular no delete call
reaches storage. -/
theorem c7_forbidden_no_delete :
    ∀ (st : Storage) (r i : String) (u : User), r ≠ i →
      st.getUser r = Except.ok u → u.isAdmin = false →
      deleteByUser st r i = (Except.error RepoErr.forbidden, [SCall.getUser r])
      ∧ noDeleteCall (deleteByUser st r i).2 = true := by
  intro st r i u hne hget hadm
  have hcheck : checkIfRequesterIsAdmin st r =
      (Except.error RepoErr.forbidden, [SCall.getUser r]) := by
    unfold checkIfRequesterIsAdmin
    rw [hget]
    simp [hadm]
  have hres : deleteByUser st r i =
      (Except.error RepoErr.forbidden, [SCall.getUser r]) := by
    unfold deleteByUser
    rw [if_pos hne, hcheck]
  exact ⟨hres, by rw [hres]; rfl⟩

/-- C7 witness: the non-admin `u1` asking to delete "u2" is denied and the
only storage call is the admin lookup. -/
theorem c7_witness :
    deleteByUser stU1 "u1" "u2" =
      (Except.error RepoErr.forbidden, [SCall.getUser "u1"])
    ∧ noDeleteCall (deleteByUser stU1 "u1" "u2").2 = true :=
  c7_forbidden_no_delete stU1 "u1" "u2" u1 (by decide) (by decide) rfl

/-- C9.  The Auto-GC loop's behavior is independent of the results `GC()`
returns: traces differing only in GC results have the same shape (so an
error neither propagates nor ends the loop), every trace is a sequence of
GC-then-sleep pairs, and while the flag is observed up an iteration emits the
GC call and then the sleep before the flag is re-checked (an observed down
flag ends the loop). -/
theorem c9_gc_errors_swallowed :
    (∀ (flag : Nat → Bool) (gc gc' : Nat → Except StorageErr Unit) (x k fuel : Nat),
      shape (autoGCLoop flag gc x k fuel) = shape (autoGCLoop flag gc' x k fuel))
    ∧ (∀ (flag : Nat → Bool) (gc : Nat → Except StorageErr Unit) (x k fuel : Nat),
      paired (autoGCLoop flag gc x k fuel) = true)
    ∧ (∀ (flag : Nat → Bool) (gc : Nat → Except StorageErr Unit) (x k fuel : Nat),
      autoGCLoop flag gc x k (fuel + 1) =
        if flag k then
          LoopEvent.gcCall (gc k) :: LoopEvent.sleep x ::
            autoGCLoop flag gc x (k + 1) fuel
        else []) := by
  refine ⟨?_, ?_, ?_⟩
  · intro flag gc gc' x k fuel
    induction fuel generalizing k with
    | zero => rfl
    | succ n ih =>
      by_cases h : flag k
      · simp only [autoGCLoop, h, if_true, shape]
        rw [ih]
      · simp [autoGCLoop, h]
  · intro flag gc x k fuel
    induction fuel generalizing k with
    | zero => rfl
    | succ n ih =>
      by_cases h : flag k
      · simp only [autoGCLoop, h, if_true, paired]
        exact ih (k + 1)
      · simp [autoGCLoop, h, paired]
  · intro flag gc x k fuel
    rfl

/-- Helper: an invalid name is rejected by `validateName`. -/
theorem validateName_err (n : String) (h : n.length = 0 ∨ n.length > 100) :
    validateName n = Except.error RepoErr.invalidName := by
  unfold validateName; rw [if_pos h]

/-- Helper: a valid name passes `validateName`. -/
theorem validateName_ok (n : String) (h : ¬(n.length = 0 ∨ n.length > 100)) :
    validateName n = Except.ok () := by
  unfold validateName; rw [if_neg h]

/-- Helper: a short password is rejected by `validatePassword`. -/
theorem validatePassword_err (w : List Nat) (h : w.length < 6) :
    validatePassword w = Except.error RepoErr.invalidPassword := by
  unfold validatePassword; rw [if_pos h]

/-- Helper: a long-enough password passes `validatePassword`. -/
theorem validatePassword_ok (w : List Nat) (h : ¬ w.length < 6) :
    validatePassword w = Except.ok () := by
  unfold validatePassword; rw [if_neg h]

/-- Helper: lifted storage results are never the `InvalidName` validation
error. -/
theorem liftE_ne_invalidName {α : Type} (e : Except StorageErr α) :
    (liftE e = Except.error RepoErr.invalidName) ↔ False := by
  cases e with
  | ok a => simp [liftE]
  | error e => cases e <;> simp [liftE, ofStorageErr]

/-- Helper: lifted storage results are never the `InvalidSecret` validation
error. -/
theorem liftE_ne_invalidPassword {α : Type} (e : Except StorageErr α) :
    (liftE e = Except.error RepoErr.invalidPassword) ↔ False := by
  cases e with
  | ok a => simp [liftE]
  | error e => cases e <;> simp [liftE, ofStorageErr]

/-- Check whether a repository result is one of the two validation errors. -/
def isValidationErr {α : Type} : Except RepoErr α → Bool
  | Except.error RepoErr.invalidName => true
  | Except.error RepoErr.invalidPassword => true
  | _ => false

/-- Helper: once both validations pass, `Create` can no longer produce a
validation error (its result comes from the hash, id-generation and storage
oracles). -/
theorem create_no_validation (st : Storage) (hash : List Nat → Except String (List Nat))
    (genID : Except String String) (name : String) (pw : List Nat) (adm : Bool)
    (hn : ¬(name.length = 0 ∨ name.length > 100)) (hp : ¬ pw.length < 6) :
    isValidationErr (create st hash genID name pw adm).1 = false := by
  simp only [create, validateName_ok name hn, validatePassword_ok pw hp]
  cases hash pw with
  | error m => rfl
  | ok ph =>
    cases genID with
    | error m => rfl
    | ok nid =>
      cases hsv : st.saveUser { id := nid, name := name, password := ph, isAdmin := adm } with
      | error e => cases e <;> simp [hsv, isValidationErr, ofStorageErr]
      | ok _ => simp [hsv, isValidationErr]

/-- Helper: when every present field of the patch is valid, `Update`
delegates to `Storage.UpdateUser` and returns its (lifted) result, with the
single storage call as its trace. -/
theorem update_valid_fields (st : Storage) (p : UpdatePayload)
    (hname : ∀ n, p.Name = some n → ¬(n.length = 0 ∨ n.length > 100))
    (hpw : ∀ w, p.Password = some w → ¬ w.length < 6) :
    update st p = (liftE (st.updateUser p), [SCall.updateUser p]) := by
  cases hN : p.Name with
  | none =>
    cases hP : p.Password with
    | none => simp [update, hN, hP]
    | some w => simp [update, hN, hP, validatePassword_ok w (hpw w hP)]
  | some n =>
    cases hP : p.Password with
    | none => simp [update, hN, hP, validateName_ok n (hname n hN)]
    | some w =>
      simp [update, hN, hP, validateName_ok n (hname n hN),
        validatePassword_ok w (hpw w hP)]

/-- C3 (amended).  `Update` validates the present fields first: a present
invalid name yields `InvalidName` with no storage call even when the target
does not exist; only when every present field is valid does it delegate to
storage, and then a missing target yields `NotFound`. -/
theorem c3_validation_precedes_storage :
    (∀ (st : Storage) (p : UpdatePayload) (n : String), p.Name = some n →
      (n.length = 0 ∨ n.length > 100) →
      update st p = (Except.error RepoErr.invalidName, []))
    ∧ (∀ (st : Storage) (p : UpdatePayload),
        (∀ n, p.Name = some n → ¬(n.length = 0 ∨ n.length > 100)) →
        (∀ w, p.Password = some w → ¬ w.length < 6) →
        update st p = (liftE (st.updateUser p), [SCall.updateUser p]))
    ∧ (∀ (st : Storage) (p : UpdatePayload),
        (∀ n, p.Name = some n → ¬(n.length = 0 ∨ n.length > 100)) →
        (∀ w, p.Password = some w → ¬ w.length < 6) →
        st.updateUser p = Except.error StorageErr.notFound →
        (update st p).1 = Except.error RepoErr.notFound) := by
  refine ⟨?_, update_valid_fields, ?_⟩
  · intro st p n hn hbad
    simp [update, hn, validateName_err n hbad]
  · intro st p hname hpw hmiss
    rw [update_valid_fields st p hname hpw, hmiss]
    rfl

/-- C3 witness: a valid patch for the nonexistent "ghost" account against the
empty storage fails with `NotFound` (once validation passes). -/
theorem c3_witness :
    (update stEmpty goodPatch).1 = Except.error RepoErr.notFound :=
  c3_validation_precedes_storage.2.2 stEmpty goodPatch
    (fun n hn => by injection hn with h; subst h; decide)
    (fun w hw => Option.noConfusion hw)
    rfl

/-- C4 (amended).  `GetByUser` with requester equal to the target skips the
admin check entirely and returns `Get`'s result (so it can still fail with
`NotFound`); with distinct ids it performs the admin lookup first and then
returns `Get`'s result when the stored requester is an admin, and fails with
`Forbidden` when the stored requester is a non-admin or when the requester is
not found. -/
theorem c4_authorization :
    (∀ (st : Storage) (i : String), getByUser st i i = get st i)
    ∧ (∀ (st : Storage) (r i : String) (u : User), r ≠ i →
        st.getUser r = Except.ok u → u.isAdmin = true →
        getByUser st r i = ((get st i).1, SCall.getUser r :: (get st i).2))
    ∧ (∀ (st : Storage) (r i : String) (u : User), r ≠ i →
        st.getUser r = Except.ok u → u.isAdmin = false →
        getByUser st r i = (Except.error RepoErr.forbidden, [SCall.getUser r]))
    ∧ (∀ (st : Storage) (r i : String), r ≠ i →
        st.getUser r = Except.error StorageErr.notFound →
        getByUser st r i = (Except.error RepoErr.forbidden, [SCall.getUser r])) := by
  refine ⟨?_, ?_, ?_, ?_⟩
  · intro st i
    unfold getByUser
    rw [if_neg (not_not_intro rfl)]
  · intro st r i u hne hget hadm
    have hcheck : checkIfRequesterIsAdmin st r = (Except.ok (), [SCall.getUser r]) := by
      unfold checkIfRequesterIsAdmin
      rw [hget]
      simp [hadm]
    unfold getByUser
    rw [if_pos hne, hcheck]
    rfl
  · intro st r i u hne hget hadm
    have hcheck : checkIfRequesterIsAdmin st r =
        (Except.error RepoErr.forbidden, [SCall.getUser r]) := by
      unfold checkIfRequesterIsAdmin
      rw [hget]
      simp [hadm]
    unfold getByUser
    rw [if_pos hne, hcheck]
  · intro st r i hne hget
    have hcheck : checkIfRequesterIsAdmin st r =
        (Except.error RepoErr.forbidden, [SCall.getUser r]) := by
      unfold checkIfRequesterIsAdmin
      rw [hget]
    unfold getByUser
    rw [if_pos hne, hcheck]

/-- C4 witness: the non-admin `u1` is denied access to "u2", the admin
`rootUser` reads `u1` through the admin path, and an unknown requester asking
for another id is denied. -/
theorem c4_witness :
    getByUser stU1 "u1" "u2" = (Except.error RepoErr.forbidden, [SCall.getUser "u1"])
    ∧ getByUser stAdmin "root" "u1" =
        ((get stAdmin "u1").1, SCall.getUser "root" :: (get stAdmin "u1").2)
    ∧ getByUser stEmpty "x" "y" =
        (Except.error RepoErr.forbidden, [SCall.getUser "x"]) :=
  ⟨c4_authorization.2.2.1 stU1 "u1" "u2" u1 (by decide) (by decide) rfl,
   c4_authorization.2.1 stAdmin "root" "u1" rootUser (by decide) (by decide) rfl,
   c4_authorization.2.2.2 stEmpty "x" "y" (by decide) rfl⟩

/-- C6 (amended).  `Create` fails with `InvalidName` exactly when the name's
length is 0 or exceeds 100, and with `InvalidSecret` exactly when the name is
valid and the secret is shorter than 6 (name validation runs first, so an
invalid name masks an invalid secret); `Update` behaves the same way on the
fields present in the patch; the boundary name lengths 1 and 100 and the
boundary secret length 6 pass validation. -/
theorem c6_validation_boundaries :
    (∀ (st : Storage) (hash : List Nat → Except String (List Nat))
        (genID : Except String String) (name : String) (pw : List Nat) (adm : Bool),
      ((create st hash genID name pw adm).1 = Except.error RepoErr.invalidName
        ↔ (name.length = 0 ∨ name.length > 100)))
    ∧ (∀ (st : Storage) (hash : List Nat → Except String (List Nat))
        (genID : Except String String) (name : String) (pw : List Nat) (adm : Bool),
      ((create st hash genID name pw adm).1 = Except.error RepoErr.invalidPassword
        ↔ (¬(name.length = 0 ∨ name.length > 100) ∧ pw.length < 6)))
    ∧ (∀ (st : Storage) (p : UpdatePayload),
      ((update st p).1 = Except.error RepoErr.invalidName
        ↔ ∃ n, p.Name = some n ∧ (n.length = 0 ∨ n.length > 100)))
    ∧ (∀ (st : Storage) (p : UpdatePayload),
      ((update st p).1 = Except.error RepoErr.invalidPassword
        ↔ ((∀ n, p.Name = some n → ¬(n.length = 0 ∨ n.length > 100))
            ∧ ∃ w, p.Password = some w ∧ w.length < 6)))
    ∧ validateName "a" = Except.ok ()
    ∧ validateName name100 = Except.ok ()
    ∧ validatePassword [1, 2, 3, 4, 5, 6] = Except.ok () := by
  refine ⟨?_, ?_, ?_, ?_, by decide, by decide, by decide⟩
  · intro st hash genID name pw adm
    by_cases hn : name.length = 0 ∨ name.length > 100
    · simp [create, validateName_err name hn, hn]
    · constructor
      · intro heq
        have hv := fun hp => create_no_validation st hash genID name pw adm hn hp
        by_cases hp : pw.length < 6
        · rw [show (create st hash genID name pw adm).1 =
              Except.error RepoErr.invalidPassword from ?_] at heq
          · exact absurd heq (by simp)
          · simp [create, validateName_ok name hn, validatePassword_err pw hp]
        · have := hv hp
          rw [heq] at this
          simp [isValidationErr] at this
      · intro hcon; exact absurd hcon hn
  · intro st hash genID name pw adm
    by_cases hn : name.length = 0 ∨ name.length > 100
    · simp [create, validateName_err name hn, hn]
    · by_cases hp : pw.length < 6
      · simp [create, validateName_ok name hn, validatePassword_err pw hp, hn, hp]
      · constructor
        · intro heq
          have := create_no_validation st hash genID name pw adm hn hp
          rw [heq] at this
          simp [isValidationErr] at this
        · intro hcon; exact absurd hcon.2 hp
  · intro st p
    cases hN : p.Name with
    | none =>
      cases hP : p.Password with
      | none => simp [update, hN, hP, liftE_ne_invalidName]
      | some w =>
        by_cases hp : w.length < 6
        · simp [update, hN, hP, validatePassword_err w hp]
        · simp [update, hN, hP, validatePassword_ok w hp, liftE_ne_invalidName]
    | some n =>
      by_cases hb : n.length = 0 ∨ n.length > 100
      · simp [update, hN, validateName_err n hb, hb]
      · cases hP : p.Password with
        | none => simp [update, hN, hP, validateName_ok n hb, liftE_ne_invalidName, hb]
        | some w =>
          by_cases hp : w.length < 6
          · simp [update, hN, hP, validateName_ok n hb, validatePassword_err w hp, hb]
          · simp [update, hN, hP, validateName_ok n hb, validatePassword_ok w hp,
              liftE_ne_invalidName, hb]
  · intro st p
    cases hN : p.Name with
    | none =>
      cases hP : p.Password with
      | none => simp [update, hN, hP, liftE_ne_invalidPassword]
      | some w =>
        by_cases hp : w.length < 6
        · simp [update, hN, hP, validatePassword_err w hp, hp]
        · simp [update, hN, hP, validatePassword_ok w hp, liftE_ne_invalidPassword, hp]
    | some n =>
      by_cases hb : n.length = 0 ∨ n.length > 100
      · simp [update, hN, validateName_err n hb]
        intro h0 h1
        rcases hb with hb | hb
        · exact absurd hb h0
        · exact absurd hb (Nat.not_lt.mpr h1)
      · cases hP : p.Password with
        | none => simp [update, hN, hP, validateName_ok n hb, liftE_ne_invalidPassword, hb]
        | some w =>
          by_cases hp : w.length < 6
          · simp [update, hN, hP, validateName_ok n hb, validatePassword_err w hp, hp]
            exact ⟨fun h => hb (Or.inl h), Nat.not_lt.mp fun h => hb (Or.inr h)⟩
          · simp [update, hN, hP, validateName_ok n hb, validatePassword_ok w hp,
              liftE_ne_invalidPassword, hb, hp]

end Linksh
